import Mathlib

/- Verification development for the rest-api-builder backend.

   The definitions below are a shallow embedding of the TypeScript sources:
   - src/backend/src/types/index.ts            (FieldType, SQL_TYPE_MAPPING, QueryOptions, ApiResponse)
   - src/backend/src/services/resourceService.ts
       ResourceService      (createResource, getResource, updateTableSchema, formatDefaultValue, ...)
       DynamicDataService   (createData, getData, getDataById, updateData, deleteData,
                             validateData, validateFieldType, validateFieldRules)
   - src/backend/src/middleware/validation.ts  (declaration-time identifier regex; context only)

   Modelling conventions, fixed once here:
   - JavaScript runtime values occurring in payloads are modelled by `JsValue`
     (null, booleans, numbers as rationals, strings, and an opaque tag for
     structured objects).  IEEE-754 rounding and NaN are not modelled; no
     theorem below depends on them.
   - `undefined` (an absent object property) is modelled by `Option.none` of a
     `List.lookup` on the payload's key/value list.
   - `Date.parse` and `JSON.parse` are external runtime functions; the
     validator takes them as boolean-valued parameters (`dp`, `jp`) and every
     theorem is proved for all their behaviours.
   - `new RegExp(p).test(v)` is modelled over an inductive star-free regex
     syntax: `test` succeeds iff some contiguous substring of the value fully
     matches, which is exactly the JS `RegExp.prototype.test` search
     semantics.  Regex-source parsing is not modelled: rules carry the
     compiled `Regex` directly.
   - Asynchronous store calls are modelled by `Except String` valued oracles
     (one per underlying query); a thrown store exception is `Except.error m`
     with `m` the error's message.  `prisma.$transaction` rollback is
     modelled by returning the pre-transaction state when the callback fails.
-/

namespace RestApiBuilder

/-- FieldType from @prisma/client (the 8 declared kinds, a closed enum). -/
inductive FieldType where
  | STRING
  | INTEGER
  | FLOAT
  | BOOLEAN
  | DATE
  | DATETIME
  | TEXT
  | JSON
deriving DecidableEq

/-- SQL_TYPE_MAPPING from src/backend/src/types/index.ts. -/
def SQL_TYPE_MAPPING : FieldType → String
  | .STRING => "VARCHAR(255)"
  | .INTEGER => "INTEGER"
  | .FLOAT => "DECIMAL(10,2)"
  | .BOOLEAN => "BOOLEAN"
  | .DATE => "DATE"
  | .DATETIME => "TIMESTAMP"
  | .TEXT => "TEXT"
  | .JSON => "JSONB"

/-- A JavaScript runtime value as it can occur in a request payload.
`vNum` carries a rational (JS numbers that matter here are integral or plain
decimals); `vObj` is an opaque tag standing for any structured (object/array)
value. -/
inductive JsValue where
  | vNull
  | vBool : Bool → JsValue
  | vNum : ℚ → JsValue
  | vStr : String → JsValue
  | vObj : Nat → JsValue
deriving DecidableEq

/-- Rendering of a number by JS string interpolation; integral values print
without a fractional part.  No theorem depends on the fractional rendering. -/
def qToString (q : ℚ) : String :=
  if q.den = 1 then toString q.num else toString q

/-- JS ToString coercion, as used by template-literal interpolation and by
`RegExp.test`'s argument coercion. -/
def jsToString : JsValue → String
  | .vNull => "null"
  | .vBool b => if b then "true" else "false"
  | .vNum q => qToString q
  | .vStr s => s
  | .vObj _ => "[object Object]"

/-- JS truthiness (`value ? a : b`). -/
def jsTruthy : JsValue → Bool
  | .vNull => false
  | .vBool b => b
  | .vNum q => decide (q ≠ 0)
  | .vStr s => decide (s ≠ "")
  | .vObj _ => true

/-- JS ToNumber coercion used by the relational operators; `none` stands for
NaN.  String-to-number conversion is modelled for integer literals (no
theorem below relies on fractional string parsing). -/
def jsToNum : JsValue → Option ℚ
  | .vNull => some 0
  | .vBool b => some (if b then 1 else 0)
  | .vNum q => some q
  | .vStr s => if s = "" then some 0 else (s.toInt? ).map (fun n => (n : ℚ))
  | .vObj _ => none

/-- JS `value < bound` with a numeric bound (NaN compares false). -/
def jsLtNum (value : JsValue) (bound : ℚ) : Bool :=
  match jsToNum value with
  | some q => decide (q < bound)
  | none => false

/-- JS `value > bound` with a numeric bound (NaN compares false). -/
def jsGtNum (value : JsValue) (bound : ℚ) : Bool :=
  match jsToNum value with
  | some q => decide (q > bound)
  | none => false

/-- JS `value.length`: strings have a length, the other payload values give
`undefined` (so the length comparisons below are false for them). -/
def jsLength : JsValue → Option Nat
  | .vStr s => some s.length
  | _ => none

/-- Star-free regular expressions, the syntax the embedded
`RegExp.prototype.test` works over. -/
inductive Regex where
  | eps
  | ch : Char → Regex
  | seq : Regex → Regex → Regex
  | alt : Regex → Regex → Regex
deriving DecidableEq

/-- Whether `r` matches the whole character list. -/
def regexFullMatch : Regex → List Char → Bool
  | .eps, cs => cs.isEmpty
  | .ch c, cs => decide (cs = [c])
  | .seq a b, cs =>
      (List.range (cs.length + 1)).any
        (fun i => regexFullMatch a (cs.take i) && regexFullMatch b (cs.drop i))
  | .alt a b, cs => regexFullMatch a cs || regexFullMatch b cs

/-- `new RegExp(r).test(s)`: JS `test` searches, so it succeeds iff SOME
contiguous substring of `s` fully matches `r`. -/
def regexTest (r : Regex) (s : String) : Bool :=
  let cs := s.data
  (List.range (cs.length + 1)).any (fun i =>
    (List.range (cs.length - i + 1)).any (fun j =>
      regexFullMatch r ((cs.drop i).take j)))

/-- FieldValidation from src/backend/src/types/index.ts.  The `pattern` field
carries the compiled regex (the source stores its string source and compiles
it with `new RegExp` at check time). -/
structure FieldValidation where
  min : Option ℚ := none
  max : Option ℚ := none
  minLength : Option ℚ := none
  maxLength : Option ℚ := none
  pattern : Option Regex := none
  enum : Option (List String) := none
deriving DecidableEq

/-- A stored field row, as DynamicDataService reads it from the catalog
(`resource.fields`): name, type and flags, plus the already-parsed
validation rules (the source stores them JSON-stringified and parses them
back inside validateData). -/
structure Field where
  name : String
  type : FieldType
  isRequired : Bool
  isUnique : Bool
  defaultValue : Option JsValue
  validation : Option FieldValidation
deriving DecidableEq

/-- DynamicDataService.validateFieldType (resourceService.ts lines 878-918).
Returns `some message` exactly when the source returns `valid: false`.
`dp` is the `!isNaN(Date.parse value)` oracle, `jp` the `JSON.parse` success
oracle. -/
def validateFieldType (dp : JsValue → Bool) (jp : String → Bool)
    (value : JsValue) : FieldType → Option String
  | .STRING | .TEXT =>
    match value with
    | .vStr _ => none
    | _ => some "Must be a string"
  | .INTEGER =>
    match value with
    | .vNum q => if q.den = 1 then none else some "Must be an integer"
    | _ => some "Must be an integer"
  | .FLOAT =>
    match value with
    | .vNum _ => none
    | _ => some "Must be a number"
  | .BOOLEAN =>
    match value with
    | .vBool _ => none
    | _ => some "Must be a boolean"
  | .DATE | .DATETIME =>
    if dp value then none else some "Must be a valid date"
  | .JSON =>
    match value with
    | .vStr s => if jp s then none else some "Must be valid JSON"
    | _ => none

/-- The `rules.min` early return of validateFieldRules (line 922-924). -/
def checkMin (value : JsValue) (rules : FieldValidation) (fieldName : String) : Option String :=
  match rules.min with
  | some m =>
    if jsLtNum value m then
      some ("Field '" ++ fieldName ++ "' must be at least " ++ qToString m)
    else none
  | none => none

/-- The `rules.max` early return of validateFieldRules (line 925-927). -/
def checkMax (value : JsValue) (rules : FieldValidation) (fieldName : String) : Option String :=
  match rules.max with
  | some m =>
    if jsGtNum value m then
      some ("Field '" ++ fieldName ++ "' must be at most " ++ qToString m)
    else none
  | none => none

/-- The `rules.minLength` early return (line 928-930); `value.length` is
`undefined` for non-strings, making the comparison false. -/
def checkMinLength (value : JsValue) (rules : FieldValidation) (fieldName : String) : Option String :=
  match rules.minLength with
  | some ml =>
    match jsLength value with
    | some l =>
      if (l : ℚ) < ml then
        some ("Field '" ++ fieldName ++ "' must be at least " ++ qToString ml ++ " characters")
      else none
    | none => none
  | none => none

/-- The `rules.maxLength` early return (line 931-933). -/
def checkMaxLength (value : JsValue) (rules : FieldValidation) (fieldName : String) : Option String :=
  match rules.maxLength with
  | some ml =>
    match jsLength value with
    | some l =>
      if (l : ℚ) > ml then
        some ("Field '" ++ fieldName ++ "' must be at most " ++ qToString ml ++ " characters")
      else none
    | none => none
  | none => none

/-- The `rules.pattern` early return (line 934-936): the compiled regex is
`test`ed against the value, i.e. searched for anywhere in it. -/
def checkPattern (value : JsValue) (rules : FieldValidation) (fieldName : String) : Option String :=
  match rules.pattern with
  | some p =>
    if regexTest p (jsToString value) then none
    else some ("Field '" ++ fieldName ++ "' format is invalid")
  | none => none

/-- The `rules.enum` early return (line 937-939): `includes` uses strict
equality, so only an identical string member passes. -/
def checkEnum (value : JsValue) (rules : FieldValidation) (fieldName : String) : Option String :=
  match rules.enum with
  | some xs =>
    if (match value with | .vStr s => xs.contains s | _ => false) then none
    else some ("Field '" ++ fieldName ++ "' must be one of: " ++ String.intercalate ", " xs)
  | none => none

/-- DynamicDataService.validateFieldRules (lines 921-941): the six early
returns in source order; `<|>` keeps the first failure. -/
def validateFieldRules (value : JsValue) (rules : FieldValidation) (fieldName : String) : Option String :=
  checkMin value rules fieldName <|> checkMax value rules fieldName
    <|> checkMinLength value rules fieldName <|> checkMaxLength value rules fieldName
    <|> checkPattern value rules fieldName <|> checkEnum value rules fieldName

/-- The loop body of DynamicDataService.validateData (lines 836-872) for one
field: required check (creation only), then type check and constraint rules
when a non-null value was supplied.  Returns the failure message, if any. -/
def fieldCheck (dp : JsValue → Bool) (jp : String → Bool) (isUpdate : Bool)
    (data : List (String × JsValue)) (field : Field) : Option String :=
  let value := List.lookup field.name data
  if isUpdate = false ∧ field.isRequired = true ∧ (value = none ∨ value = some JsValue.vNull) then
    some ("Field '" ++ field.name ++ "' is required")
  else
    match value with
    | none => none
    | some JsValue.vNull => none
    | some v =>
      match validateFieldType dp jp v field.type with
      | some msg => some ("Field '" ++ field.name ++ "': " ++ msg)
      | none =>
        match field.validation with
        | some rules => validateFieldRules v rules field.name
        | none => none

/-- DynamicDataService.validateData (lines 835-875): the fields are scanned
in order and the first failing field's message is returned alone. -/
def validateData (dp : JsValue → Bool) (jp : String → Bool)
    (data : List (String × JsValue)) : List Field → Bool → Option String
  | [], _ => none
  | f :: rest, isUpdate =>
    match fieldCheck dp jp isUpdate data f with
    | some msg => some msg
    | none => validateData dp jp data rest isUpdate

/-- ApiResponse from src/backend/src/types/index.ts: the success/failure
envelope every service operation returns. -/
structure ApiResponse (α : Type) where
  success : Bool
  data : Option α := none
  error : Option String := none
  message : Option String := none
deriving DecidableEq

/-- The catch block wrapping every service operation: a store failure inside
the body becomes a failure envelope labelled for the operation, with the
thrown error's own message preserved in `message`. -/
def runCatch {α : Type} (label : String) (body : Except String (ApiResponse α)) : ApiResponse α :=
  match body with
  | .ok r => r
  | .error m => { success := false, error := some label, message := some m }

/-- The `Resource not found` envelope shared by all data operations. -/
def resourceNotFoundEnv {α : Type} (name : String) : ApiResponse α :=
  { success := false, error := some "Resource not found",
    message := some ("Resource '" ++ name ++ "' not found") }

/-- The `Data not found` envelope for a missing record id. -/
def dataNotFoundEnv {α : Type} (id : Nat) : ApiResponse α :=
  { success := false, error := some "Data not found",
    message := some ("Data with id " ++ toString id ++ " not found") }

/-- The envelope validateData's callers forward on a validation failure. -/
def validationEnv {α : Type} (msg : String) : ApiResponse α :=
  { success := false, error := some "Validation error", message := some msg }

/-- A stored row of a resource's physical table: the surrogate id, the
creation timestamp (an integer instant) and the declared-field values. -/
structure Row where
  id : Nat
  createdAt : Int
  vals : List (String × JsValue)
deriving DecidableEq

/-- Column access on a row; `id` and `created_at` are the built-in columns
every dynamic table carries. -/
def rowGet (r : Row) (k : String) : Option JsValue :=
  if k = "id" then some (.vNum (r.id : ℚ))
  else if k = "created_at" then some (.vNum (r.createdAt : ℚ))
  else List.lookup k r.vals

/-- Sort direction ('asc' | 'desc' in QueryOptions). -/
inductive SortOrder where
  | asc
  | desc
deriving DecidableEq

/-- QueryOptions from src/backend/src/types/index.ts. -/
structure QueryOptions where
  page : Option Nat := none
  limit : Option Nat := none
  sort : Option String := none
  order : Option SortOrder := none
  filter : List (String × JsValue) := []
deriving DecidableEq

/-- JS `x || d` on the numeric options: absent and 0 are both falsy and fall
back to the default (the HTTP layer only admits nonnegative integers for
page/limit, so they are carried as naturals). -/
def jsOrNat : Option Nat → Nat → Nat
  | some n, d => if n = 0 then d else n
  | none, d => d

/-- SQL equality semantics of one `"k" = $i` filter predicate: true iff the
column exists with a non-null value equal to the (non-null) parameter. -/
def filterMatches (filter : List (String × JsValue)) (row : Row) : Bool :=
  filter.all (fun kv =>
    match rowGet row kv.1 with
    | some v => decide (v = kv.2 ∧ v ≠ JsValue.vNull)
    | none => false)

/-- A (total, deterministic) comparison on column values used to interpret
ORDER BY; only that sorting permutes the rows matters to the theorems
below, not the particular order between values of different kinds. -/
def jsValLe (a b : JsValue) : Bool :=
  match a, b with
  | .vNull, _ => true
  | _, .vNull => false
  | .vBool x, .vBool y => !x || y
  | .vBool _, _ => true
  | _, .vBool _ => false
  | .vNum x, .vNum y => decide (x ≤ y)
  | .vNum _, _ => true
  | _, .vNum _ => false
  | .vStr x, .vStr y => decide (x ≤ y)
  | .vStr _, _ => true
  | _, .vStr _ => false
  | .vObj x, .vObj y => decide (x ≤ y)

/-- Lift of the value comparison to possibly-missing column values. -/
def optValLe : Option JsValue → Option JsValue → Bool
  | none, _ => true
  | some _, none => false
  | some a, some b => jsValLe a b

/-- Ordered insertion for the sort interpreting ORDER BY. -/
def insertBy {α : Type} (le : α → α → Bool) (x : α) : List α → List α
  | [] => [x]
  | y :: ys => if le x y then x :: y :: ys else y :: insertBy le x ys

/-- A deterministic comparison sort (insertion sort) interpreting ORDER BY;
only that it permutes the rows deterministically matters below. -/
def sortBy {α : Type} (le : α → α → Bool) : List α → List α
  | [] => []
  | x :: xs => insertBy le x (sortBy le xs)

/-- The ORDER BY clause of getData: by the requested column in the requested
direction ('asc' when order is absent), else by created_at descending. -/
def applySort (sort : Option String) (ord : Option SortOrder) (rows : List Row) : List Row :=
  match sort with
  | some s =>
    sortBy (fun a b =>
      match ord.getD SortOrder.asc with
      | .asc => optValLe (rowGet a s) (rowGet b s)
      | .desc => optValLe (rowGet b s) (rowGet a s)) rows
  | none => sortBy (fun a b => decide (b.createdAt ≤ a.createdAt)) rows

/-- The pagination block of getData's response. -/
structure DataPage where
  items : List Row
  page : Nat
  limit : Nat
  total : Nat
  totalPages : Nat
deriving DecidableEq

/-- A resource row of the metadata catalog (prisma's `resource` table with
its fields included). -/
structure CatalogEntry where
  name : String
  tableName : String
  fields : List Field
deriving DecidableEq

/-- The metadata catalog (the durable prisma store). -/
structure SysState where
  catalog : List CatalogEntry
deriving DecidableEq

/-- `prisma.resource.findUnique({ where: { name } })`. -/
def findResource (st : SysState) (name : String) : Option CatalogEntry :=
  st.catalog.find? (fun e => decide (e.name = name))

/-- ResourceService.generateTableName (line 242-244). -/
def generateTableName (resourceName : String) : String :=
  "dyn_" ++ resourceName.toLower

/-- FieldDefinition from src/backend/src/types/index.ts; the optional flags
default to false as the `|| false` normalisation in the service applies. -/
structure FieldDefinition where
  name : String
  displayName : Option String := none
  type : FieldType
  isRequired : Bool := false
  isUnique : Bool := false
  defaultValue : Option JsValue := none
  validation : Option FieldValidation := none
deriving DecidableEq

/-- ResourceDefinition from src/backend/src/types/index.ts. -/
structure ResourceDefinition where
  name : String
  displayName : Option String := none
  description : Option String := none
  fields : List FieldDefinition
deriving DecidableEq

/-- The stored field row a declaration's field becomes. -/
def toField (fd : FieldDefinition) : Field :=
  { name := fd.name, type := fd.type, isRequired := fd.isRequired,
    isUnique := fd.isUnique, defaultValue := fd.defaultValue,
    validation := fd.validation }

/-- ResourceService.createResource (lines 12-79).  The metadata insert and
the `createTable` DDL run inside one `prisma.$transaction`; the DDL's
outcome is the `ddl` oracle (it runs on a separate pool connection, only
its success or thrown error feeds back).  When the callback throws, prisma
rolls the metadata write back, so the returned state keeps the old catalog;
the outer catch turns the error into a failure envelope. -/
def createResource (st : SysState) (defn : ResourceDefinition)
    (ddl : Except String Unit) : SysState × ApiResponse CatalogEntry :=
  match findResource st defn.name with
  | some _ =>
    (st, { success := false, error := some "Resource already exists",
           message := some ("Resource '" ++ defn.name ++ "' already exists") })
  | none =>
    let entry : CatalogEntry :=
      { name := defn.name, tableName := generateTableName defn.name,
        fields := defn.fields.map toField }
    match ddl with
    | .error m =>
      (st, { success := false, error := some "Failed to create resource",
             message := some m })
    | .ok _ =>
      ({ catalog := st.catalog ++ [entry] },
       { success := true, data := some entry,
         message := some ("Resource '" ++ defn.name ++ "' created successfully") })

/-- ResourceService.getResource (lines 108-139); the `lookup` oracle is the
prisma read, which may itself throw. -/
def getResource (lookup : Except String (Option CatalogEntry)) (name : String) :
    ApiResponse CatalogEntry :=
  runCatch "Failed to fetch resource"
    (match lookup with
     | .error e => .error e
     | .ok none => .ok (resourceNotFoundEnv name)
     | .ok (some e) => .ok { success := true, data := some e })

/-- ResourceService.getAllResources (lines 82-105). -/
def getAllResources (lookup : Except String (List CatalogEntry)) :
    ApiResponse (List CatalogEntry) :=
  runCatch "Failed to fetch resources"
    (match lookup with
     | .error e => .error e
     | .ok rs => .ok { success := true, data := some rs })

/-- ResourceService.updateResource (lines 142-200) at the catalog level: the
metadata update, field diff and schema DDL all run inside one transaction,
summarised by the `tx` oracle; on its failure prisma rolls back and the
catalog is unchanged.  (The DDL statements the transaction emits are
modelled separately by `updateTableSchemaStatements`.) -/
def updateResource (st : SysState) (name : String) (defn : ResourceDefinition)
    (tx : Except String Unit) : SysState × ApiResponse CatalogEntry :=
  match findResource st name with
  | none => (st, resourceNotFoundEnv name)
  | some e =>
    match tx with
    | .error m =>
      (st, { success := false, error := some "Failed to update resource",
             message := some m })
    | .ok _ =>
      let upd : CatalogEntry := { e with fields := defn.fields.map toField }
      ({ catalog := st.catalog.map (fun x => if x.name = name then upd else x) },
       { success := true, data := some upd,
         message := some ("Resource '" ++ name ++ "' updated successfully") })

/-- ResourceService.deleteResource (lines 203-239): metadata delete and table
drop in one transaction, summarised by the `ddl` oracle. -/
def deleteResource (st : SysState) (name : String) (ddl : Except String Unit) :
    SysState × ApiResponse Unit :=
  match findResource st name with
  | none => (st, resourceNotFoundEnv name)
  | some _ =>
    match ddl with
    | .error m =>
      (st, { success := false, error := some "Failed to delete resource",
             message := some m })
    | .ok _ =>
      ({ catalog := st.catalog.filter (fun x => decide (x.name ≠ name)) },
       { success := true,
         message := some ("Resource '" ++ name ++ "' deleted successfully") })

/-- The `"${x}"` identifier interpolation used throughout the query text. -/
def quoteIdent (s : String) : String := "\"" ++ s ++ "\""

/-- A `$n` parameter placeholder. -/
def placeholder (n : Nat) : String := "$" ++ toString n

/-- The `"key" = $i` filter predicates of getData, in payload order. -/
def filterConds (filter : List (String × JsValue)) : List String :=
  filter.enum.map (fun p => quoteIdent p.2.1 ++ " = " ++ placeholder (p.1 + 1))

/-- The SQL text and parameter list DynamicDataService.getData builds (lines
601-631): filter keys and the sort column are interpolated into the text as
written by the caller, values and limit/offset travel as parameters.
Template-literal whitespace is flattened to single spaces. -/
def getDataSql (tableName : String) (o : QueryOptions) : String × List JsValue :=
  let whereClause :=
    if o.filter.length = 0 then ""
    else " WHERE " ++ String.intercalate " AND " (filterConds o.filter)
  let orderClause :=
    match o.sort with
    | some s =>
      " ORDER BY " ++ quoteIdent s ++ " "
        ++ (match o.order.getD SortOrder.asc with
            | .asc => "ASC"
            | .desc => "DESC")
    | none => " ORDER BY created_at DESC"
  let n := o.filter.length
  let limit := jsOrNat o.limit 50
  let page := jsOrNat o.page 1
  ("SELECT * FROM " ++ quoteIdent tableName ++ whereClause ++ orderClause
     ++ " LIMIT " ++ placeholder (n + 1) ++ " OFFSET " ++ placeholder (n + 2),
   o.filter.map (fun kv => kv.2)
     ++ [JsValue.vNum (limit : ℚ), JsValue.vNum (((page - 1) * limit : Nat) : ℚ)])

/-- The INSERT text and parameters DynamicDataService.createData builds
(lines 552-563): the column list is exactly the payload's keys, quoted and
interpolated; the values travel as parameters. -/
def createDataSql (tableName : String) (data : List (String × JsValue)) : String × List JsValue :=
  let columns := data.map (fun kv => kv.1)
  let values := data.map (fun kv => kv.2)
  let placeholders := (List.range values.length).map (fun i => placeholder (i + 1))
  ("INSERT INTO " ++ quoteIdent tableName ++ " ("
     ++ String.intercalate ", " (columns.map quoteIdent) ++ ") VALUES ("
     ++ String.intercalate ", " placeholders ++ ") RETURNING *",
   values)

/-- The UPDATE text and parameters DynamicDataService.updateData builds
(lines 748-759). -/
def updateDataSql (tableName : String) (data : List (String × JsValue)) (id : Nat) :
    String × List JsValue :=
  let columns := data.map (fun kv => kv.1)
  let values := data.map (fun kv => kv.2)
  let setClause := columns.enum.map (fun p => quoteIdent p.2 ++ " = " ++ placeholder (p.1 + 1))
  ("UPDATE " ++ quoteIdent tableName ++ " SET " ++ String.intercalate ", " setClause
     ++ " WHERE id = " ++ placeholder (columns.length + 1) ++ " RETURNING *",
   values ++ [JsValue.vNum (id : ℚ)])

/-- The DELETE text and parameter of DynamicDataService.deleteData (line 805). -/
def deleteDataSql (tableName : String) (id : Nat) : String × List JsValue :=
  ("DELETE FROM " ++ quoteIdent tableName ++ " WHERE id = $1 RETURNING *",
   [JsValue.vNum (id : ℚ)])

/-- The SELECT text and parameter of DynamicDataService.getDataById (line 695). -/
def getByIdSql (tableName : String) (id : Nat) : String × List JsValue :=
  ("SELECT * FROM " ++ quoteIdent tableName ++ " WHERE id = $1",
   [JsValue.vNum (id : ℚ)])

/-- DynamicDataService.getData (lines 584-675).  `lookup` is the catalog
read, `fetch` the physical table's rows; the paged SELECT and the COUNT
query are interpreted over those rows with standard SQL semantics: filter,
then sort, then LIMIT/OFFSET, while the count applies the same filter but
no paging.  `limit || 50`, `page || 1`, offset (page-1)*limit, and
`Math.ceil(total/limit)` (the limit here is always positive, so the natural
ceiling division is exact). -/
def getData (lookup : Except String (Option CatalogEntry))
    (fetch : Except String (List Row)) (resourceName : String)
    (o : QueryOptions) : ApiResponse DataPage :=
  runCatch "Failed to fetch data"
    (match lookup with
     | .error e => .error e
     | .ok none => .ok (resourceNotFoundEnv resourceName)
     | .ok (some _r) =>
       match fetch with
       | .error e => .error e
       | .ok rows =>
         let filtered := rows.filter (fun row => filterMatches o.filter row)
         let sorted := applySort o.sort o.order filtered
         let limit := jsOrNat o.limit 50
         let page := jsOrNat o.page 1
         let offset := (page - 1) * limit
         let items := (sorted.drop offset).take limit
         let total := filtered.length
         .ok { success := true,
               data := some { items := items, page := page, limit := limit,
                              total := total, totalPages := total ⌈/⌉ limit } })

/-- DynamicDataService.createData (lines 529-581): catalog lookup,
validation with isUpdate=false, then the INSERT through the `exec` oracle;
any thrown store error is caught into a failure envelope. -/
def createData (lookup : Except String (Option CatalogEntry))
    (exec : String → List JsValue → Except String (List Row))
    (dp : JsValue → Bool) (jp : String → Bool)
    (resourceName : String) (data : List (String × JsValue)) : ApiResponse Row :=
  runCatch "Failed to create data"
    (match lookup with
     | .error e => .error e
     | .ok none => .ok (resourceNotFoundEnv resourceName)
     | .ok (some r) =>
       match validateData dp jp data r.fields false with
       | some msg => .ok (validationEnv msg)
       | none =>
         let q := createDataSql r.tableName data
         match exec q.1 q.2 with
         | .error e => .error e
         | .ok rows =>
           .ok { success := true, data := rows.head?,
                 message := some "Data created successfully" })

/-- DynamicDataService.getDataById (lines 678-721). -/
def getDataById (lookup : Except String (Option CatalogEntry))
    (exec : String → List JsValue → Except String (List Row))
    (resourceName : String) (id : Nat) : ApiResponse Row :=
  runCatch "Failed to fetch data"
    (match lookup with
     | .error e => .error e
     | .ok none => .ok (resourceNotFoundEnv resourceName)
     | .ok (some r) =>
       let q := getByIdSql r.tableName id
       match exec q.1 q.2 with
       | .error e => .error e
       | .ok [] => .ok (dataNotFoundEnv id)
       | .ok (row :: _) => .ok { success := true, data := some row })

/-- DynamicDataService.updateData (lines 724-785): validation with
isUpdate=true, then the UPDATE with the payload values (nulls included)
forwarded as parameters. -/
def updateData (lookup : Except String (Option CatalogEntry))
    (exec : String → List JsValue → Except String (List Row))
    (dp : JsValue → Bool) (jp : String → Bool)
    (resourceName : String) (id : Nat) (data : List (String × JsValue)) :
    ApiResponse Row :=
  runCatch "Failed to update data"
    (match lookup with
     | .error e => .error e
     | .ok none => .ok (resourceNotFoundEnv resourceName)
     | .ok (some r) =>
       match validateData dp jp data r.fields true with
       | some msg => .ok (validationEnv msg)
       | none =>
         let q := updateDataSql r.tableName data id
         match exec q.1 q.2 with
         | .error e => .error e
         | .ok [] => .ok (dataNotFoundEnv id)
         | .ok (row :: _) =>
           .ok { success := true, data := some row,
                 message := some "Data updated successfully" })

/-- DynamicDataService.deleteData (lines 788-832). -/
def deleteData (lookup : Except String (Option CatalogEntry))
    (exec : String → List JsValue → Except String (List Row))
    (resourceName : String) (id : Nat) : ApiResponse Row :=
  runCatch "Failed to delete data"
    (match lookup with
     | .error e => .error e
     | .ok none => .ok (resourceNotFoundEnv resourceName)
     | .ok (some r) =>
       let q := deleteDataSql r.tableName id
       match exec q.1 q.2 with
       | .error e => .error e
       | .ok [] => .ok (dataNotFoundEnv id)
       | .ok (row :: _) =>
         .ok { success := true, data := some row,
               message := some "Data deleted successfully" })

/-- A single-quote character as a string, for building SQL literals. -/
def sq : String := "'"

/-- `.replace(/'/g, "''")`: every single quote doubled. -/
def escQuotes (cs : List Char) : List Char :=
  cs.flatMap (fun c => if c = '\'' then ['\'', '\''] else [c])

/-- The string form of the quote-doubling replacement. -/
def escQuotesStr (s : String) : String := String.mk (escQuotes s.data)

/-- JSON.stringify's escaping of a string body (quote and backslash). -/
def jsonEsc (s : String) : String :=
  String.mk (s.data.flatMap (fun c =>
    if c = '\"' then ['\\', '\"'] else if c = '\\' then ['\\', '\\'] else [c]))

/-- JSON.stringify on a payload value (structured values are rendered
opaquely; no theorem depends on that case). -/
def jsonStringify : JsValue → String
  | .vNull => "null"
  | .vBool b => if b then "true" else "false"
  | .vNum q => qToString q
  | .vStr s => "\"" ++ jsonEsc s ++ "\""
  | .vObj _ => "\x7b\x7d"

/-- ResourceService.formatDefaultValue (lines 496-521).  Quote-doubling is
applied for STRING/TEXT only; DATE/DATETIME interpolate the raw value
between quotes.  The TS switch's `default` branch is unreachable for the
closed FieldType enum. -/
def formatDefaultValue (value : JsValue) (t : FieldType) : String :=
  match value with
  | .vNull => "NULL"
  | v =>
    match t with
    | .STRING | .TEXT => sq ++ escQuotesStr (jsToString v) ++ sq
    | .INTEGER | .FLOAT => jsToString v
    | .BOOLEAN => if jsTruthy v then "TRUE" else "FALSE"
    | .DATE | .DATETIME => sq ++ jsToString v ++ sq
    | .JSON => sq ++ jsonStringify v ++ sq ++ "::jsonb"

/-- Scanner for the text after an opening single quote: every interior quote
must come doubled, and the literal must end at the final closing quote
(no premature terminator, no trailing garbage). -/
def sqlInnerOk : List Char → Bool
  | [] => false
  | c :: rest =>
    if c = '\'' then
      match rest with
      | [] => true
      | c2 :: rest2 => if c2 = '\'' then sqlInnerOk rest2 else false
    else sqlInnerOk rest

/-- Whether a character list is one single correctly-quoted SQL literal:
an opening quote, then `sqlInnerOk` text up to the closing quote. -/
def properlyQuotedChars : List Char → Bool
  | c :: rest => decide (c = '\'') && sqlInnerOk rest
  | [] => false

/-- Whether a rendered SQL string is one single correctly-quoted literal. -/
def properlyQuotedLit (s : String) : Bool :=
  properlyQuotedChars s.data

/-- The column definition used when updateTableSchema adds a column
(lines 437-454): type, NOT NULL when required, DEFAULT when declared. -/
def addColumnDef (nf : FieldDefinition) : String :=
  quoteIdent nf.name ++ " " ++ SQL_TYPE_MAPPING nf.type
    ++ (if nf.isRequired then " NOT NULL" else "")
    ++ (match nf.defaultValue with
        | some v => " DEFAULT " ++ formatDefaultValue v nf.type
        | none => "")

/-- The `CREATE UNIQUE INDEX` statement both branches emit (lines 457-461,
483-487). -/
def uniqueIndexSql (tableName fieldName : String) : String :=
  "CREATE UNIQUE INDEX " ++ quoteIdent (tableName ++ "_" ++ fieldName ++ "_unique")
    ++ " ON " ++ quoteIdent tableName ++ " (" ++ quoteIdent fieldName ++ ")"

/-- The `DROP INDEX IF EXISTS` statement (lines 479-482). -/
def dropIndexSql (tableName fieldName : String) : String :=
  "DROP INDEX IF EXISTS " ++ quoteIdent (tableName ++ "_" ++ fieldName ++ "_unique")

/-- ResourceService.updateTableSchema (lines 401-493) as the ordered list of
SQL statements it issues: first one DROP COLUMN per deleted field, then per
new-declaration field either an ADD COLUMN (plus unique index) for a new
field, an ALTER COLUMN (plus index add/drop) when type, required or unique
changed, or nothing at all when the three attributes are unchanged. -/
def updateTableSchemaStatements (tableName : String)
    (existingFields : List Field) (newFields : List FieldDefinition) : List String :=
  let drops :=
    (existingFields.filter
        (fun ef => !(newFields.any (fun nf => decide (nf.name = ef.name))))).map
      (fun ef => "ALTER TABLE " ++ quoteIdent tableName
        ++ " DROP COLUMN IF EXISTS " ++ quoteIdent ef.name)
  let perField := newFields.map (fun nf =>
    match existingFields.find? (fun ef => decide (ef.name = nf.name)) with
    | none =>
      ["ALTER TABLE " ++ quoteIdent tableName ++ " ADD COLUMN " ++ addColumnDef nf]
        ++ (if nf.isUnique then [uniqueIndexSql tableName nf.name] else [])
    | some ef =>
      if ef.type ≠ nf.type ∨ ef.isRequired ≠ nf.isRequired ∨ ef.isUnique ≠ nf.isUnique then
        ["ALTER TABLE " ++ quoteIdent tableName ++ " ALTER COLUMN "
           ++ quoteIdent nf.name ++ " " ++ SQL_TYPE_MAPPING nf.type
           ++ (if nf.isRequired then " NOT NULL" else "")]
          ++ (if ef.isUnique ∧ ¬ nf.isUnique then [dropIndexSql tableName nf.name]
              else if ¬ ef.isUnique ∧ nf.isUnique then [uniqueIndexSql tableName nf.name]
              else [])
      else [])
  drops ++ perField.flatten

/-- The items of a getData response (empty when the call failed). -/
def getItems (resp : ApiResponse DataPage) : List Row :=
  match resp.data with
  | some pg => pg.items
  | none => []

/-- The pagination contract of getData over an existing resource `r` whose
table holds `rows`: absent limit/page behave as 50/1; the response slices
the sorted filtered rows at offset (page-1)*limit, reports the filtered
count as `total` independently of the paging, and `totalPages` is the
ceiling of total/limit; and over the whole store (no filter) with limit
`L`, the pages 1..totalPages concatenate to exactly the stored ids, no
duplicates, no omissions. -/
def getDataPaginationProp (r : CatalogEntry) (rows : List Row) (o : QueryOptions)
    (name : String) (L : Nat) : Prop :=
  (getData (.ok (some r)) (.ok rows) name { o with limit := none }
     = getData (.ok (some r)) (.ok rows) name { o with limit := some 50 }
   ∧ getData (.ok (some r)) (.ok rows) name { o with page := none }
     = getData (.ok (some r)) (.ok rows) name { o with page := some 1 })
  ∧ (∃ pg : DataPage,
      getData (.ok (some r)) (.ok rows) name o = { success := true, data := some pg }
      ∧ pg.limit = jsOrNat o.limit 50
      ∧ pg.page = jsOrNat o.page 1
      ∧ pg.items = ((applySort o.sort o.order
            (rows.filter (fun row => filterMatches o.filter row))).drop
            ((pg.page - 1) * pg.limit)).take pg.limit
      ∧ pg.total = (rows.filter (fun row => filterMatches o.filter row)).length
      ∧ pg.totalPages = pg.total ⌈/⌉ pg.limit)
  ∧ (((List.range (rows.length ⌈/⌉ L)).map (fun i =>
        getItems (getData (.ok (some r)) (.ok rows) name
          { page := some (i + 1), limit := some L, sort := o.sort,
            order := o.order, filter := [] }))).flatten.map Row.id).Perm
      (rows.map Row.id)
  ∧ (((List.range (rows.length ⌈/⌉ L)).map (fun i =>
        getItems (getData (.ok (some r)) (.ok rows) name
          { page := some (i + 1), limit := some L, sort := o.sort,
            order := o.order, filter := [] }))).flatten.map Row.id).Nodup


/- ------------------------------------------------------------------ -/
/- Helper lemmas (shared; none of them is a claim's theorem).          -/
/- ------------------------------------------------------------------ -/

theorem insertBy_perm {α : Type} (le : α → α → Bool) (x : α) (l : List α) :
    List.Perm (insertBy le x l) (x :: l) := by
  induction l with
  | nil => exact List.Perm.refl _
  | cons y ys ih =>
    by_cases hle : le x y
    · simp [insertBy, hle]
    · simp only [insertBy, hle, if_neg]
      exact ((ih.cons y).trans (List.Perm.swap x y ys))

theorem sortBy_perm {α : Type} (le : α → α → Bool) (l : List α) :
    List.Perm (sortBy le l) l := by
  induction l with
  | nil => exact List.Perm.refl _
  | cons x xs ih => exact (insertBy_perm le x (sortBy le xs)).trans (ih.cons x)

theorem applySort_perm (sort : Option String) (ord : Option SortOrder) (rows : List Row) :
    List.Perm (applySort sort ord rows) rows := by
  cases sort with
  | none => exact sortBy_perm _ rows
  | some s => exact sortBy_perm _ rows

theorem flatten_slices {α : Type} (L : Nat) :
    ∀ (n : Nat) (l : List α), l.length ≤ n * L →
      ((List.range n).map (fun i => (l.drop (i * L)).take L)).flatten = l := by
  intro n
  induction n with
  | zero =>
    intro l hl
    simp at hl
    simp [hl]
  | succ n ih =>
    intro l hl
    rw [List.range_succ_eq_map]
    simp only [List.map_cons, List.map_map, List.flatten_cons, Nat.zero_mul, List.drop_zero]
    have hshift :
        (List.map ((fun i => (l.drop (i * L)).take L) ∘ Nat.succ) (List.range n)).flatten
          = (List.map (fun i => ((l.drop L).drop (i * L)).take L) (List.range n)).flatten := by
      congr 1
      apply List.map_congr_left
      intro i _
      simp [Function.comp, List.drop_drop, Nat.succ_mul, Nat.add_comm]
    have hmul : (n + 1) * L = n * L + L := Nat.succ_mul n L
    rw [hshift, ih (l.drop L) (by simp; omega)]
    exact List.take_append_drop L l

theorem le_ceilDiv_mul (a L : Nat) (hL : 0 < L) : a ≤ (a ⌈/⌉ L) * L := by
  rw [Nat.ceilDiv_eq_add_pred_div]
  have h := Nat.div_add_mod (a + L - 1) L
  have h2 : (a + L - 1) % L < L := Nat.mod_lt _ hL
  have h3 : L * ((a + L - 1) / L) = ((a + L - 1) / L) * L := Nat.mul_comm _ _
  omega


theorem fieldCheck_skip (dp : JsValue → Bool) (jp : String → Bool)
    (data : List (String × JsValue)) (f : Field)
    (h : List.lookup f.name data = none ∨ List.lookup f.name data = some JsValue.vNull) :
    fieldCheck dp jp true data f = none := by
  rcases h with h | h <;> simp [fieldCheck, h]

theorem validateData_eq_none_iff (dp : JsValue → Bool) (jp : String → Bool)
    (data : List (String × JsValue)) (fields : List Field) (isUpdate : Bool) :
    validateData dp jp data fields isUpdate = none ↔
      ∀ g ∈ fields, fieldCheck dp jp isUpdate data g = none := by
  induction fields with
  | nil => simp [validateData]
  | cons f rest ih =>
    cases hfc : fieldCheck dp jp isUpdate data f with
    | some m => simp [validateData, hfc]
    | none => simp [validateData, hfc, ih]

theorem validateData_eq_some_iff (dp : JsValue → Bool) (jp : String → Bool)
    (data : List (String × JsValue)) (fields : List Field) (isUpdate : Bool) (msg : String) :
    validateData dp jp data fields isUpdate = some msg ↔
      ∃ l1 g l2, fields = l1 ++ g :: l2
        ∧ (∀ x ∈ l1, fieldCheck dp jp isUpdate data x = none)
        ∧ fieldCheck dp jp isUpdate data g = some msg := by
  induction fields with
  | nil => simp [validateData]
  | cons f rest ih =>
    cases hfc : fieldCheck dp jp isUpdate data f with
    | some m =>
      simp only [validateData, hfc]
      constructor
      · intro h
        exact ⟨[], f, rest, rfl, by simp, by rw [hfc, h]⟩
      · rintro ⟨l1, g, l2, heq, hnone, hg⟩
        cases l1 with
        | nil =>
          simp at heq
          rw [heq.1] at hfc
          rw [hfc] at hg
          exact hg
        | cons a l1 =>
          simp at heq
          have ha : a = f := heq.1.symm
          have := hnone a (by simp)
          rw [ha, hfc] at this
          exact absurd this (by simp)
    | none =>
      simp only [validateData, hfc]
      rw [ih]
      constructor
      · rintro ⟨l1, g, l2, heq, hnone, hg⟩
        refine ⟨f :: l1, g, l2, by simp [heq], ?_, hg⟩
        intro x hx
        rcases List.mem_cons.mp hx with hx | hx
        · rw [hx]; exact hfc
        · exact hnone x hx
      · rintro ⟨l1, g, l2, heq, hnone, hg⟩
        cases l1 with
        | nil =>
          simp at heq
          rw [heq.1] at hfc
          rw [hfc] at hg
          cases hg
        | cons a l1 =>
          simp at heq
          exact ⟨l1, g, l2, heq.2, fun x hx => hnone x (by simp [hx]), hg⟩

theorem sqlInnerOk_cons_ne (c : Char) (rest : List Char) (h : ¬ c = '\'') :
    sqlInnerOk (c :: rest) = sqlInnerOk rest := by
  conv_lhs => rw [sqlInnerOk.eq_def]
  simp [h]

theorem sqlInnerOk_quote_pair (rest : List Char) :
    sqlInnerOk ('\'' :: '\'' :: rest) = sqlInnerOk rest := by
  conv_lhs => rw [sqlInnerOk.eq_def]
  simp

theorem sqlInnerOk_escQuotes (cs : List Char) :
    sqlInnerOk (escQuotes cs ++ ['\'']) = true := by
  induction cs with
  | nil => rfl
  | cons c cs ih =>
    by_cases hc : c = '\''
    · subst hc
      simpa [escQuotes, sqlInnerOk_quote_pair] using ih
    · simpa [escQuotes, hc, sqlInnerOk_cons_ne c _ hc] using ih

/-- C10: formatDefaultValue doubles single quotes inside the rendered literal
only for STRING and TEXT default values; DATE and DATETIME interpolate the
raw value without escaping, so a default value containing a single quote
renders as a DDL literal that is not correctly quoted. -/
theorem formatDefaultValue_escapes_only_strings :
    (∀ s : String,
        formatDefaultValue (.vStr s) .STRING = sq ++ escQuotesStr s ++ sq
        ∧ formatDefaultValue (.vStr s) .TEXT = sq ++ escQuotesStr s ++ sq
        ∧ properlyQuotedLit (formatDefaultValue (.vStr s) .STRING) = true
        ∧ formatDefaultValue (.vStr s) .DATE = sq ++ s ++ sq
        ∧ formatDefaultValue (.vStr s) .DATETIME = sq ++ s ++ sq)
    ∧ ('\'' ∈ ("it's").data
        ∧ properlyQuotedLit (formatDefaultValue (.vStr "it's") .DATE) = false
        ∧ properlyQuotedLit (formatDefaultValue (.vStr "it's") .DATETIME) = false) := by
  constructor
  · intro s
    refine ⟨rfl, rfl, ?_, rfl, rfl⟩
    have hdata : (formatDefaultValue (.vStr s) .STRING).data
        = '\'' :: (escQuotes s.data ++ ['\'']) := by
      show (sq ++ escQuotesStr (jsToString (.vStr s)) ++ sq).data = _
      simp [sq, escQuotesStr, jsToString]
    simp [properlyQuotedLit, hdata, properlyQuotedChars, sqlInnerOk_escQuotes]
  · exact ⟨by decide, by decide, by decide⟩

/-- C4 (code evaluation at the failing inputs): a field whose type changed
makes updateTableSchema issue the single statement
`ALTER TABLE "dyn_book" ALTER COLUMN "title" TEXT NOT NULL` (no TYPE
keyword, no SET/DROP NOT NULL form), required-flag changes issue the bare
`ALTER COLUMN "title" VARCHAR(255)` with no nullability clause at all, and
an unchanged field issues nothing. -/
theorem updateTableSchema_alter_statements_concrete :
    updateTableSchemaStatements "dyn_book"
      [⟨"title", .STRING, true, false, none, none⟩]
      [{ name := "title", type := .TEXT, isRequired := true }]
      = ["ALTER TABLE \"dyn_book\" ALTER COLUMN \"title\" TEXT NOT NULL"]
    ∧ updateTableSchemaStatements "dyn_book"
      [⟨"title", .STRING, true, false, none, none⟩]
      [{ name := "title", type := .STRING, isRequired := false }]
      = ["ALTER TABLE \"dyn_book\" ALTER COLUMN \"title\" VARCHAR(255)"]
    ∧ updateTableSchemaStatements "dyn_book"
      [⟨"title", .STRING, true, false, none, none⟩]
      [{ name := "title", type := .STRING, isRequired := true }]
      = [] := by
  refine ⟨by decide, by decide, by decide⟩

/-- C1 (code evaluation at the failing inputs): getData interpolates the
caller-supplied sort identifier, and createData the payload keys, verbatim
into the SQL text; neither is drawn from the resource's declared field
names (here the single declared field `title`). -/
theorem identifiers_interpolated_unvalidated :
    (getDataSql "dyn_books" { sort := some "id\" ; DROP TABLE \"dyn_books" }).1
      = "SELECT * FROM \"dyn_books\" ORDER BY \"id\" ; DROP TABLE \"dyn_books\" ASC LIMIT $1 OFFSET $2"
    ∧ (createDataSql "dyn_books" [("x\" , \"y", JsValue.vStr "v")]).1
      = "INSERT INTO \"dyn_books\" (\"x\" , \"y\") VALUES ($1) RETURNING *"
    ∧ "id\" ; DROP TABLE \"dyn_books"
        ∉ ([⟨"title", .STRING, true, false, none, none⟩] : List Field).map Field.name
    ∧ "x\" , \"y"
        ∉ ([⟨"title", .STRING, true, false, none, none⟩] : List Field).map Field.name := by
  refine ⟨by decide, by decide, by decide, by decide⟩

/-- C8: getData treats limit 0 and page 0 as absent: each falls back to its
default (50 and 1) and the whole response is the one the defaulted options
produce. -/
theorem getData_zero_limit_page_fall_back (lookup : Except String (Option CatalogEntry))
    (fetch : Except String (List Row)) (name : String) (o : QueryOptions) :
    getData lookup fetch name { o with limit := some 0 }
      = getData lookup fetch name { o with limit := none }
    ∧ getData lookup fetch name { o with page := some 0 }
      = getData lookup fetch name { o with page := none } := by
  constructor <;> simp [getData, jsOrNat]

/-- C2: when the physical table creation DDL fails inside createResource's
transaction, the catalog write does not persist: the state is unchanged,
the call reports failure, and a subsequent getResource on the name answers
`Resource not found`. -/
theorem createResource_failed_ddl_keeps_catalog (st : SysState) (defn : ResourceDefinition)
    (m : String) (hfresh : findResource st defn.name = none) :
    (createResource st defn (.error m)).1 = st
    ∧ (createResource st defn (.error m)).2.success = false
    ∧ getResource (.ok (findResource (createResource st defn (.error m)).1 defn.name)) defn.name
        = resourceNotFoundEnv defn.name := by
  have h1 : (createResource st defn (.error m)).1 = st := by
    simp [createResource, hfresh]
  refine ⟨h1, ?_, ?_⟩
  · simp [createResource, hfresh]
  · rw [h1, hfresh]
    rfl

/-- Witness for C2 at a concrete empty catalog. -/
theorem createResource_failed_ddl_keeps_catalog_witness :
    findResource ⟨[]⟩ "book" = none
    ∧ ((createResource ⟨[]⟩ { name := "book", fields := [] } (.error "boom")).1 = ⟨[]⟩
       ∧ (createResource ⟨[]⟩ { name := "book", fields := [] } (.error "boom")).2.success = false
       ∧ getResource (.ok (findResource
             (createResource ⟨[]⟩ { name := "book", fields := [] } (.error "boom")).1 "book")) "book"
           = resourceNotFoundEnv "book") :=
  ⟨rfl, createResource_failed_ddl_keeps_catalog ⟨[]⟩ { name := "book", fields := [] } "boom" rfl⟩

/-- C5: with isUpdate=true an unsupplied (absent or null) field is never
checked, so no required-field failure can arise; with isUpdate=false an
absent or null required field fails with the required message; and
validateData reports exactly the first failing field's message alone
(success iff every field passes). -/
theorem validateData_required_and_first_failure (dp : JsValue → Bool) (jp : String → Bool)
    (data : List (String × JsValue)) (fields : List Field) (f : Field) (msg : String) :
    ((List.lookup f.name data = none ∨ List.lookup f.name data = some JsValue.vNull) →
        fieldCheck dp jp true data f = none)
    ∧ (f.isRequired = true →
        (List.lookup f.name data = none ∨ List.lookup f.name data = some JsValue.vNull) →
        fieldCheck dp jp false data f = some ("Field '" ++ f.name ++ "' is required"))
    ∧ (∀ isUpdate : Bool,
        (validateData dp jp data fields isUpdate = some msg ↔
          ∃ l1 g l2, fields = l1 ++ g :: l2
            ∧ (∀ x ∈ l1, fieldCheck dp jp isUpdate data x = none)
            ∧ fieldCheck dp jp isUpdate data g = some msg))
    ∧ (∀ isUpdate : Bool,
        (validateData dp jp data fields isUpdate = none ↔
          ∀ g ∈ fields, fieldCheck dp jp isUpdate data g = none)) := by
  refine ⟨fieldCheck_skip dp jp data f, ?_, ?_, ?_⟩
  · intro hreq h
    rcases h with h | h <;> simp [fieldCheck, h, hreq]
  · intro isUpdate
    exact validateData_eq_some_iff dp jp data fields isUpdate msg
  · intro isUpdate
    exact validateData_eq_none_iff dp jp data fields isUpdate

/-- C6 counterexample: a STRING field with pattern rule `ab` accepts the
value `xaby`, although the pattern fully matches only the proper substring
`ab` of the value, not the entire value. -/
theorem pattern_substring_match_accepted :
    validateData (fun _ => true) (fun _ => true) [("s", JsValue.vStr "xaby")]
      [⟨"s", .STRING, false, false, none,
        some { pattern := some (.seq (.ch 'a') (.ch 'b')) }⟩] false = none
    ∧ regexFullMatch (.seq (.ch 'a') (.ch 'b')) ("xaby").data = false
    ∧ regexFullMatch (.seq (.ch 'a') (.ch 'b')) ['a', 'b'] = true
    ∧ ("xaby").data = ['x'] ++ ['a', 'b'] ++ ['y'] := by
  refine ⟨by decide, by decide, by decide, by decide⟩

/-- C6 amended: a supplied value passes a pattern rule iff the pattern
matches somewhere inside the value (RegExp.test substring search; a full
match of the entire value is not required), and constraint rules are
evaluated only once the value has passed the type check: a type failure is
reported as the type error whatever the field's rules say. -/
theorem pattern_rule_is_substring_search (v : JsValue) (p : Regex) (fieldName : String)
    (dp : JsValue → Bool) (jp : String → Bool) (isUpdate : Bool)
    (data : List (String × JsValue)) (f : Field) (m : String) :
    (validateFieldRules v { pattern := some p } fieldName = none
      ↔ regexTest p (jsToString v) = true)
    ∧ (List.lookup f.name data = some v → v ≠ JsValue.vNull →
        validateFieldType dp jp v f.type = some m →
        fieldCheck dp jp isUpdate data f = some ("Field '" ++ f.name ++ "': " ++ m)) := by
  constructor
  · cases ht : regexTest p (jsToString v) <;>
      simp [validateFieldRules, checkMin, checkMax, checkMinLength, checkMaxLength,
            checkPattern, checkEnum, ht]
  · intro hlook hv htype
    cases v with
    | vNull => exact absurd rfl hv
    | vBool b => simp [fieldCheck, hlook, htype]
    | vNum q => simp [fieldCheck, hlook, htype]
    | vStr s => simp [fieldCheck, hlook, htype]
    | vObj o => simp [fieldCheck, hlook, htype]

/-- C9: with isUpdate=true the payload setting one field to null passes
validation whatever the declared fields, their types, flags or rules are;
updateData forwards the null as an UPDATE parameter, and a store rejection
surfaces as the store failure envelope (never a ValidationError). -/
theorem null_update_skips_validation (dp : JsValue → Bool) (jp : String → Bool)
    (r : CatalogEntry) (fname : String) (id : Nat) (m : String) :
    validateData dp jp [(fname, JsValue.vNull)] r.fields true = none
    ∧ (updateDataSql r.tableName [(fname, JsValue.vNull)] id).2
        = [JsValue.vNull, JsValue.vNum (id : ℚ)]
    ∧ updateData (.ok (some r)) (fun _ _ => .error m) dp jp r.name id [(fname, JsValue.vNull)]
        = { success := false, error := some "Failed to update data", message := some m } := by
  have hval : validateData dp jp [(fname, JsValue.vNull)] r.fields true = none := by
    rw [validateData_eq_none_iff]
    intro g _
    apply fieldCheck_skip
    by_cases hg : g.name = fname
    · right
      simp [List.lookup, hg]
    · left
      have hbe : (g.name == fname) = false := beq_eq_false_iff_ne.mpr hg
      simp [List.lookup, hbe]
  refine ⟨hval, rfl, ?_⟩
  simp [updateData, runCatch, hval]

/-- C7: every embedded catalog and data operation converts an underlying
store failure into the failure envelope carrying the original error
message; the raw store error never escapes the service boundary (each
operation is total into the envelope type). -/
theorem store_failures_become_envelopes (m : String) (st : SysState)
    (defn : ResourceDefinition) (name : String) (id : Nat)
    (data : List (String × JsValue)) (o : QueryOptions)
    (dp : JsValue → Bool) (jp : String → Bool) (r : CatalogEntry)
    (exec : String → List JsValue → Except String (List Row)) :
    (findResource st defn.name = none →
        (createResource st defn (.error m)).2
          = { success := false, error := some "Failed to create resource", message := some m })
    ∧ getAllResources (.error m)
        = { success := false, error := some "Failed to fetch resources", message := some m }
    ∧ getResource (.error m) name
        = { success := false, error := some "Failed to fetch resource", message := some m }
    ∧ (findResource st name = some r →
        (updateResource st name defn (.error m)).2
          = { success := false, error := some "Failed to update resource", message := some m })
    ∧ (findResource st name = some r →
        (deleteResource st name (.error m)).2
          = { success := false, error := some "Failed to delete resource", message := some m })
    ∧ createData (.error m) exec dp jp name data
        = { success := false, error := some "Failed to create data", message := some m }
    ∧ (validateData dp jp data r.fields false = none →
        createData (.ok (some r)) (fun _ _ => .error m) dp jp name data
          = { success := false, error := some "Failed to create data", message := some m })
    ∧ getData (.ok (some r)) (.error m) name o
        = { success := false, error := some "Failed to fetch data", message := some m }
    ∧ getDataById (.ok (some r)) (fun _ _ => .error m) name id
        = { success := false, error := some "Failed to fetch data", message := some m }
    ∧ (validateData dp jp data r.fields true = none →
        updateData (.ok (some r)) (fun _ _ => .error m) dp jp name id data
          = { success := false, error := some "Failed to update data", message := some m })
    ∧ deleteData (.ok (some r)) (fun _ _ => .error m) name id
        = { success := false, error := some "Failed to delete data", message := some m } := by
  refine ⟨?_, rfl, rfl, ?_, ?_, rfl, ?_, rfl, rfl, ?_, rfl⟩
  · intro h
    simp [createResource, h]
  · intro h
    simp [updateResource, h]
  · intro h
    simp [deleteResource, h]
  · intro h
    simp [createData, runCatch, h]
  · intro h
    simp [updateData, runCatch, h]

/-- C3: getData's pagination contract and the pagination law, stated by
`getDataPaginationProp`: defaults 50/1, offset (page-1)*limit, independent
filtered total, totalPages = ceil(total/limit), and pages 1..totalPages
concatenating to exactly the stored ids. -/
theorem getData_pagination_law (r : CatalogEntry) (rows : List Row) (o : QueryOptions)
    (name : String) (L : Nat) (hL : 0 < L) (hids : (rows.map Row.id).Nodup) :
    getDataPaginationProp r rows o name L := by
  have hL0 : L ≠ 0 := Nat.pos_iff_ne_zero.mp hL
  have base : ∀ i : Nat,
      getItems (getData (.ok (some r)) (.ok rows) name
        { page := some (i + 1), limit := some L, sort := o.sort,
          order := o.order, filter := [] })
        = ((applySort o.sort o.order rows).drop (i * L)).take L := by
    intro i
    have hf : rows.filter (fun row => filterMatches [] row) = rows := by
      simp [filterMatches]
    simp [getItems, getData, runCatch, jsOrNat, hL0, hf]
  have hperm : List.Perm (applySort o.sort o.order rows) rows := applySort_perm _ _ _
  have hcover : (applySort o.sort o.order rows).length ≤ (rows.length ⌈/⌉ L) * L := by
    rw [hperm.length_eq]
    exact le_ceilDiv_mul rows.length L hL
  have hflat :
      ((List.range (rows.length ⌈/⌉ L)).map
        (fun i => ((applySort o.sort o.order rows).drop (i * L)).take L)).flatten
        = applySort o.sort o.order rows :=
    flatten_slices L (rows.length ⌈/⌉ L) _ hcover
  have hmapeq :
      (List.range (rows.length ⌈/⌉ L)).map (fun i =>
        getItems (getData (.ok (some r)) (.ok rows) name
          { page := some (i + 1), limit := some L, sort := o.sort,
            order := o.order, filter := [] }))
        = (List.range (rows.length ⌈/⌉ L)).map
            (fun i => ((applySort o.sort o.order rows).drop (i * L)).take L) :=
    List.map_congr_left (fun i _ => base i)
  have hpermids :
      (((List.range (rows.length ⌈/⌉ L)).map (fun i =>
          getItems (getData (.ok (some r)) (.ok rows) name
            { page := some (i + 1), limit := some L, sort := o.sort,
              order := o.order, filter := [] }))).flatten.map Row.id).Perm
        (rows.map Row.id) := by
    rw [hmapeq, hflat]
    exact hperm.map Row.id
  refine ⟨⟨by simp [getData, jsOrNat], by simp [getData, jsOrNat]⟩,
          ⟨_, rfl, rfl, rfl, rfl, rfl, rfl⟩, hpermids, ?_⟩
  exact (hpermids.nodup_iff).mpr hids

/-- Witness for C3 at a concrete three-row store with limit 2. -/
theorem getData_pagination_law_witness :
    0 < 2
    ∧ (([⟨1, 10, []⟩, ⟨2, 20, []⟩, ⟨3, 30, []⟩] : List Row).map Row.id).Nodup
    ∧ getDataPaginationProp ⟨"book", "dyn_book", []⟩
        [⟨1, 10, []⟩, ⟨2, 20, []⟩, ⟨3, 30, []⟩] {} "book" 2 :=
  ⟨by decide, by decide,
   getData_pagination_law ⟨"book", "dyn_book", []⟩
     [⟨1, 10, []⟩, ⟨2, 20, []⟩, ⟨3, 30, []⟩] {} "book" 2 (by decide) (by decide)⟩

end RestApiBuilder
